import Mathlib

/-!
Verification of the analytical core of the `erev-range-copilot` repository.

We shallowly embed the Python modules
  `src/evcopilot/model/vmt_bins.py`
  `src/evcopilot/model/emissions_costs.py`
  `src/evcopilot/model/range_scenarios.py`
  `src/evcopilot/model/erev_calculations.py`
in Lean, modelling Python floats by exact rationals (`ℚ`).  All the
arithmetic in these modules is field arithmetic together with `min`, `max`
and clamping, so the rational embedding mirrors the source expressions
term by term.  Python's `float("inf")` sentinel for the capital cost per
ton is modelled by a dedicated constructor (`CapexPerTon.infinity`).
Division by zero follows Lean's `x / 0 = 0` convention; in the source the
corresponding NumPy NaN path is clamped to the same values by the final
`max(0.0, min(·, 1.0))`, so the convention agrees with the code on every
claim below.  The scenario YAML configuration file is not part of the
sources, so the loaded scenario store is passed explicitly as an
association list (first match = Python dict lookup with unique keys).
-/

namespace EVCopilot

/-! ## vmt_bins.py -/

/-- One trip distance bin (`TripBin` dataclass, vmt_bins.py lines 9-29).
`upper = none` is the open-ended bin. -/
structure TripBin where
  lower : ℚ
  upper : Option ℚ
  share_of_trips : ℚ
deriving DecidableEq, Repr

/-- `TripBin.midpoint` (vmt_bins.py lines 23-29): `(lower+upper)/2`, or
`lower * 1.2` for the open-ended bin. -/
def TripBin.midpoint (b : TripBin) : ℚ :=
  match b.upper with
  | none => b.lower * 1.2
  | some u => 0.5 * (b.lower + u)

/-- The raw bin list of `default_trip_bins` (vmt_bins.py lines 43-53). -/
def default_bins_raw : List TripBin :=
  [⟨0, some 1, 0.20⟩, ⟨1, some 3, 0.25⟩, ⟨3, some 5, 0.15⟩,
   ⟨5, some 10, 0.15⟩, ⟨10, some 20, 0.10⟩, ⟨20, some 30, 0.06⟩,
   ⟨30, some 50, 0.04⟩, ⟨50, some 100, 0.03⟩, ⟨100, none, 0.02⟩]

/-- `default_trip_bins` (vmt_bins.py lines 32-61): the fixed bin table,
renormalised when the trip shares are not within `np.isclose`'s tolerance
of 1 (`|total - 1| ≤ atol + rtol * |1|` with `atol = 1e-6`,
`rtol = 1e-5`). -/
def default_trip_bins : List TripBin :=
  let total := (default_bins_raw.map (·.share_of_trips)).sum
  if |total - 1| ≤ 1e-6 + 1e-5 * |(1 : ℚ)| then default_bins_raw
  else default_bins_raw.map
    (fun b => { b with share_of_trips := b.share_of_trips / total })

/-- Total raw VMT weight `Σ share_of_trips * midpoint`
(`raw_vmt.sum()` in `compute_vmt_shares`, vmt_bins.py lines 74-79). -/
def total_vmt (bins : List TripBin) : ℚ :=
  (bins.map (fun b => b.share_of_trips * b.midpoint)).sum

/-- The epsilon floor `1e-6` guarding division in
`compute_ev_share_for_range` (vmt_bins.py line 109). -/
def epsFloor : ℚ := 1e-6

/-- Per-bin electric fraction `min(1, range / max(d, 1e-6))`
(vmt_bins.py line 109). -/
def frac_electric (range_miles d : ℚ) : ℚ :=
  min 1 (range_miles / max d epsFloor)

/-- Clamp to `[0,1]`: `max(0.0, min(x, 1.0))` (vmt_bins.py line 115 and
range_scenarios.py line 70). -/
def clamp01 (x : ℚ) : ℚ := max 0 (min x 1)

/-- The dot product `np.dot(vmt_shares, frac_electric_per_bin)`
(vmt_bins.py line 112), with `vmt_shares[i] = raw_vmt[i] / total_vmt`
folded in pointwise. -/
def ev_share_dot (range_miles : ℚ) (bins : List TripBin) : ℚ :=
  (bins.map (fun b =>
    b.share_of_trips * b.midpoint / total_vmt bins
      * frac_electric range_miles b.midpoint)).sum

/-- `compute_ev_share_for_range` (vmt_bins.py lines 84-116), for an
explicit bin list (`bins=None` in the source substitutes
`default_trip_bins`). -/
def compute_ev_share_for_range (range_miles : ℚ) (bins : List TripBin) : ℚ :=
  clamp01 (ev_share_dot range_miles bins)

/-! ## Monotonicity of the EV share in the range

The dot product is piecewise linear: on `[0, ε]` every bin is on the
linear part of its `min`, so the dot is `r * lowSlope`; on `[ε, ∞)` the
bins with midpoint at most `ε` are saturated at fraction 1, and the sign
of `total_vmt` decides whether the remaining weights are all nonnegative
(dot non-decreasing) or all nonpositive (dot stays at or above 1, so the
clamp is constantly 1). -/

/-- Slope of the dot product on `[0, epsFloor]`. -/
def lowSlope (bins : List TripBin) : ℚ :=
  (bins.map (fun b =>
    b.share_of_trips * b.midpoint / total_vmt bins / max b.midpoint epsFloor)).sum

/-! ## emissions_costs.py -/

/-- `ScenarioParams` dataclass (emissions_costs.py lines 7-18). -/
structure ScenarioParams where
  name : String
  grid_co2_kg_per_kwh : ℚ
  gas_co2_kg_per_litre : ℚ
  ev_kwh_per_mile : ℚ
  gas_litre_per_mile : ℚ
  battery_kwh_per_mile_range : ℚ
  battery_cost_usd_per_kwh : ℚ
  electricity_price_usd_per_kwh : ℚ
  gas_price_usd_per_litre : ℚ
deriving DecidableEq, Repr

/-- `capex_per_ton_usd` is either a finite rational or Python's
`float("inf")` sentinel (emissions_costs.py line 117). -/
inductive CapexPerTon where
  | finite (v : ℚ)
  | infinity
deriving DecidableEq, Repr

/-- `EmissionsCostResult` dataclass (emissions_costs.py lines 21-33). -/
structure EmissionsCostResult where
  co2_ev_tons : ℚ
  co2_gas_tons : ℚ
  co2_baseline_tons : ℚ
  co2_savings_tons : ℚ
  battery_capex_usd : ℚ
  capex_per_ton_usd : CapexPerTon
  ev_energy_cost_usd : ℚ
  gas_fuel_cost_usd : ℚ
  baseline_fuel_cost_usd : ℚ
  net_operating_savings_usd : ℚ
deriving DecidableEq, Repr

/-- `compute_emissions_and_costs` (emissions_costs.py lines 57-130). -/
def compute_emissions_and_costs (range_miles ev_vmt gas_vmt : ℚ)
    (params : ScenarioParams) : EmissionsCostResult :=
  let total_vmt := ev_vmt + gas_vmt
  let battery_kwh := params.battery_kwh_per_mile_range * range_miles
  let battery_capex_usd := battery_kwh * params.battery_cost_usd_per_kwh
  let ev_kwh := ev_vmt * params.ev_kwh_per_mile
  let gas_litres := gas_vmt * params.gas_litre_per_mile
  let baseline_litres := total_vmt * params.gas_litre_per_mile
  let co2_ev_kg := ev_kwh * params.grid_co2_kg_per_kwh
  let co2_gas_kg := gas_litres * params.gas_co2_kg_per_litre
  let co2_baseline_kg := baseline_litres * params.gas_co2_kg_per_litre
  let co2_ev_tons := co2_ev_kg / 1000
  let co2_gas_tons := co2_gas_kg / 1000
  let co2_baseline_tons := co2_baseline_kg / 1000
  let co2_savings_tons := co2_baseline_tons - (co2_ev_tons + co2_gas_tons)
  let ev_energy_cost_usd := ev_kwh * params.electricity_price_usd_per_kwh
  let gas_fuel_cost_usd := gas_litres * params.gas_price_usd_per_litre
  let baseline_fuel_cost_usd := baseline_litres * params.gas_price_usd_per_litre
  let net_operating_savings_usd :=
    baseline_fuel_cost_usd - (ev_energy_cost_usd + gas_fuel_cost_usd)
  let capex_per_ton_usd :=
    if 0 < co2_savings_tons then CapexPerTon.finite (battery_capex_usd / co2_savings_tons)
    else CapexPerTon.infinity
  { co2_ev_tons := co2_ev_tons
    co2_gas_tons := co2_gas_tons
    co2_baseline_tons := co2_baseline_tons
    co2_savings_tons := co2_savings_tons
    battery_capex_usd := battery_capex_usd
    capex_per_ton_usd := capex_per_ton_usd
    ev_energy_cost_usd := ev_energy_cost_usd
    gas_fuel_cost_usd := gas_fuel_cost_usd
    baseline_fuel_cost_usd := baseline_fuel_cost_usd
    net_operating_savings_usd := net_operating_savings_usd }

/-- Association-list lookup with Python-dict semantics (unique keys,
first match).  Models `name in scenarios` / `scenarios[name]`
(emissions_costs.py lines 52-54). -/
def lookupScenario (name : String) :
    List (String × ScenarioParams) → Option ScenarioParams
  | [] => none
  | (k, v) :: rest => if k = name then some v else lookupScenario name rest

/-- The error message of `get_scenario_params` (emissions_costs.py
line 53): it names the unknown scenario and enumerates the valid keys
(`list(scenarios)`). -/
def unknownScenarioMsg (name : String)
    (scenarios : List (String × ScenarioParams)) : String :=
  "Unknown scenario " ++ name ++ ". Valid: "
    ++ String.intercalate ", " (scenarios.map (·.1))

/-- `get_scenario_params` (emissions_costs.py lines 50-54).  The scenario
store — in the source a process-wide cache filled from a YAML file that is
not part of the repository — is passed explicitly; `KeyError` is modelled
by `Except.error`. -/
def get_scenario_params (scenarios : List (String × ScenarioParams))
    (name : String) : Except String ScenarioParams :=
  match lookupScenario name scenarios with
  | some p => Except.ok p
  | none => Except.error (unknownScenarioMsg name scenarios)

/-! ## range_scenarios.py -/

/-- `RangeScenarioResult` dataclass (range_scenarios.py lines 14-25). -/
structure RangeScenarioResult where
  range_miles : ℚ
  charges_per_week : ℤ
  scenario_name : String
  ev_share : ℚ
  ev_vmt : ℚ
  gas_vmt : ℚ
  co2_savings_tons : ℚ
  capex_per_ton_usd : CapexPerTon
deriving DecidableEq, Repr

/-- `_charging_frequency_multiplier` (range_scenarios.py lines 28-44):
the fixed lookup `{2: 0.85, 3: 0.90, 5: 1.00, 7: 1.05}` with default 1.0. -/
def charging_frequency_multiplier (charges_per_week : ℤ) : ℚ :=
  if charges_per_week = 2 then 0.85
  else if charges_per_week = 3 then 0.90
  else if charges_per_week = 5 then 1.00
  else if charges_per_week = 7 then 1.05
  else 1.0

/-- `compute_range_scenario` (range_scenarios.py lines 47-94).  The
scenario store is passed explicitly (see `get_scenario_params`); a failed
scenario lookup propagates as `Except.error` like the Python `KeyError`. -/
def compute_range_scenario (scenarios : List (String × ScenarioParams))
    (range_miles : ℚ) (charges_per_week : ℤ) (scenario_name : String)
    (annual_vmt : ℚ) : Except String RangeScenarioResult :=
  let base_ev_share := compute_ev_share_for_range range_miles default_trip_bins
  let mult := charging_frequency_multiplier charges_per_week
  let ev_share := clamp01 (base_ev_share * mult)
  let ev_vmt := ev_share * annual_vmt
  let gas_vmt := annual_vmt - ev_vmt
  match get_scenario_params scenarios scenario_name with
  | Except.error e => Except.error e
  | Except.ok params =>
    let ec := compute_emissions_and_costs range_miles ev_vmt gas_vmt params
    Except.ok
      { range_miles := range_miles
        charges_per_week := charges_per_week
        scenario_name := scenario_name
        ev_share := ev_share
        ev_vmt := ev_vmt
        gas_vmt := gas_vmt
        co2_savings_tons := ec.co2_savings_tons
        capex_per_ton_usd := ec.capex_per_ton_usd }

/-! ## erev_calculations.py (paper-replication path) -/

/-- `fetch_vm1_ldv_total_vmt_miles(2023)` (fhwa_api.py lines 187-198):
for 2023 the function returns the paper's constant `3.2628e12` miles
without touching the network; `run_erev_analysis` uses exactly that call. -/
def VMT_TOTAL : ℚ := 3.2628e12

/-- Constants of erev_calculations.py lines 29-40. -/
def VMT_PER_VEH : ℚ := 11408

def ETA_EV : ℚ := 3.6

def MPG : ℚ := 26.4

def G_CO2_GRID : ℚ := 348

def CBAT : ℚ := 115

def BATTERY_LIFE_YRS : ℚ := 10

/-- `GGAS = 8887 / MPG` — gCO2 per mile for gasoline. -/
def GGAS : ℚ := 8887 / MPG

/-- `GEV = (1 / ETA_EV) * G_CO2_GRID` — gCO2 per mile for EV. -/
def GEV : ℚ := (1 / ETA_EV) * G_CO2_GRID

/-- `EV_SHARE_BASE` (erev_calculations.py lines 44-46), already sorted by
key as `sorted(EV_SHARE_BASE.items())` produces it. -/
def EV_SHARE_BASE : List (ℚ × ℚ) :=
  [(25, 0.55), (50, 0.733), (75, 0.79), (100, 0.84), (125, 0.86), (150, 0.868)]

/-- The scenario keys of the `SCENARIOS` dict (erev_calculations.py
lines 49-53), as a closed enumeration. -/
inductive ScenarioName where
  | Worst
  | Average
  | Best
deriving DecidableEq, Repr

/-- `SCENARIOS[sc]["grid_mult"]`. -/
def grid_mult : ScenarioName → ℚ
  | ScenarioName.Worst => 1.2
  | ScenarioName.Average => 1.0
  | ScenarioName.Best => 0.7

/-- `SCENARIOS[sc]["cost_mult"]`. -/
def cost_mult : ScenarioName → ℚ
  | ScenarioName.Worst => 1.3
  | ScenarioName.Average => 1.0
  | ScenarioName.Best => 0.8

/-- `compute_fleet_size()` with its defaults (erev_calculations.py
lines 59-60). -/
def compute_fleet_size : ℚ := VMT_TOTAL / VMT_PER_VEH

/-- `compute_battery_size` (erev_calculations.py lines 63-64). -/
def compute_battery_size (range_mi : ℚ) : ℚ := range_mi / ETA_EV

/-- `compute_installed_capacity_twh` (erev_calculations.py lines 67-68). -/
def compute_installed_capacity_twh (n_veh range_mi : ℚ) : ℚ :=
  n_veh * compute_battery_size range_mi / 1e9

/-- Exact key lookup in the `EV_SHARE_BASE` table
(`range_mi in EV_SHARE_BASE`, erev_calculations.py line 72). -/
def lookupShare (x : ℚ) : List (ℚ × ℚ) → Option ℚ
  | [] => none
  | (k, v) :: rest => if k = x then some v else lookupShare x rest

/-- `np.interp(x, keys, vals)` over a strictly increasing key list:
clamps to the first value below the domain and to the last value above
it, linear interpolation in between (erev_calculations.py line 76). -/
def np_interp (x : ℚ) : List (ℚ × ℚ) → ℚ
  | [] => 0
  | [p] => p.2
  | p :: q :: rest =>
    if x ≤ p.1 then p.2
    else if x ≤ q.1 then p.2 + (q.2 - p.2) * (x - p.1) / (q.1 - p.1)
    else np_interp x (q :: rest)

/-- `compute_ev_vmt_share` (erev_calculations.py lines 71-76). -/
def compute_ev_vmt_share (range_mi : ℚ) : ℚ :=
  match lookupShare range_mi EV_SHARE_BASE with
  | some v => v
  | none => np_interp range_mi EV_SHARE_BASE

/-- `compute_emissions` (erev_calculations.py lines 79-84): returns
`(EV_tons, Gas_tons, Savings_tons)` with the module's default
intensities. -/
def compute_emissions (ev_vmt gas_vmt : ℚ) : ℚ × ℚ × ℚ :=
  let ev_tons := GEV * ev_vmt / 1e6
  let gas_tons := GGAS * gas_vmt / 1e6
  let saved := gas_tons - ev_tons
  (ev_tons, gas_tons, saved)

/-- The dict returned by `compute_costs` (erev_calculations.py
lines 87-105); the `$/...` keys become field names. -/
structure CostMetrics where
  Cfleet_USD : ℚ
  usd_per_ev_mile : ℚ
  usd_per_tco2 : ℚ
deriving DecidableEq, Repr

/-- `compute_costs` (erev_calculations.py lines 87-105).  Note that
`grid_mult` and `gev_eff` are computed in the source but never used in
any returned value; they are reproduced here as dead bindings. -/
def compute_costs (range_mi ev_vmt co2_saved_tons : ℚ)
    (scenario : ScenarioName) : CostMetrics :=
  let n_veh := compute_fleet_size
  let cbat_eff := CBAT * cost_mult scenario
  let _gev_eff := GEV * grid_mult scenario
  let s_kwh := compute_battery_size range_mi
  let cfleet := n_veh * s_kwh * cbat_eff
  let capex_per_evmi := cfleet / ev_vmt
  let capex_per_ton := (cfleet / BATTERY_LIFE_YRS) / co2_saved_tons
  { Cfleet_USD := cfleet
    usd_per_ev_mile := capex_per_evmi
    usd_per_tco2 := capex_per_ton }

/-- One result row of `run_erev_analysis` (erev_calculations.py
lines 131-147), including the derived `CO2_saved_Mt` column. -/
structure ErevRow where
  Scenario : ScenarioName
  Range_mi : ℚ
  EV_share : ℚ
  EV_VMT : ℚ
  Gas_VMT : ℚ
  Installed_TWh : ℚ
  CO2_saved_tons : ℚ
  Cfleet_USD : ℚ
  usd_per_ev_mile : ℚ
  usd_per_tco2 : ℚ
  CO2_saved_Mt : ℚ
deriving DecidableEq, Repr

/-- The row built for one (scenario, range) pair inside the loop of
`run_erev_analysis` (erev_calculations.py lines 120-142). -/
def erev_row (sc : ScenarioName) (r : ℚ) : ErevRow :=
  let n_veh := compute_fleet_size
  let share := compute_ev_vmt_share r
  let ev_vmt := VMT_TOTAL * share
  let gas_vmt := VMT_TOTAL - ev_vmt
  let em := compute_emissions ev_vmt gas_vmt
  let installed_twh := compute_installed_capacity_twh n_veh r
  let cm := compute_costs r ev_vmt em.2.2 sc
  { Scenario := sc
    Range_mi := r
    EV_share := share
    EV_VMT := ev_vmt
    Gas_VMT := gas_vmt
    Installed_TWh := installed_twh
    CO2_saved_tons := em.2.2
    Cfleet_USD := cm.Cfleet_USD
    usd_per_ev_mile := cm.usd_per_ev_mile
    usd_per_tco2 := cm.usd_per_tco2
    CO2_saved_Mt := em.2.2 / 1e6 }

/-- `run_erev_analysis` (erev_calculations.py lines 111-154): the result
table, one row per (scenario, range) pair, scenarios outer, ranges inner
(the CSV side effect is omitted). -/
def run_erev_analysis (ranges : List ℚ) (scenarios : List ScenarioName) :
    List ErevRow :=
  scenarios.flatMap (fun sc => ranges.map (erev_row sc))

/-! ## Concrete fixtures used by witnesses and counterexamples -/

/-- A concrete scenario parameter set with positive battery cost, a pure
gasoline counterfactual (gas CO2 1 kg/litre, 1 litre/mile) and an
emission-free grid, used to instantiate the theorems below. -/
def testParams : ScenarioParams :=
  { name := "Test"
    grid_co2_kg_per_kwh := 0
    gas_co2_kg_per_litre := 1
    ev_kwh_per_mile := 0
    gas_litre_per_mile := 1
    battery_kwh_per_mile_range := 1
    battery_cost_usd_per_kwh := 100
    electricity_price_usd_per_kwh := 0
    gas_price_usd_per_litre := 0 }

/-- A one-entry scenario store. -/
def sampleStore : List (String × ScenarioParams) := [("Average", testParams)]

/-! ## Helper theorems -/

/-! ## Helper lemmas about the clamp and the electric fraction -/

theorem clamp01_mono {x y : ℚ} (h : x ≤ y) : clamp01 x ≤ clamp01 y :=
  max_le_max le_rfl (min_le_min h le_rfl)

theorem clamp01_nonneg (x : ℚ) : 0 ≤ clamp01 x := le_max_left 0 _

theorem clamp01_le_one (x : ℚ) : clamp01 x ≤ 1 :=
  max_le (by norm_num) (min_le_right x 1)

theorem clamp01_of_nonpos {x : ℚ} (h : x ≤ 0) : clamp01 x = 0 :=
  max_eq_left (le_trans (min_le_left x 1) h)

theorem clamp01_of_one_le {x : ℚ} (h : 1 ≤ x) : clamp01 x = 1 := by
  unfold clamp01
  rw [min_eq_right h]
  exact max_eq_right (by norm_num)

theorem clamp01_eq_self {x : ℚ} (h0 : 0 ≤ x) (h1 : x ≤ 1) : clamp01 x = x := by
  unfold clamp01
  rw [min_eq_left h1, max_eq_right h0]

theorem epsFloor_pos : (0 : ℚ) < epsFloor := by norm_num [epsFloor]

theorem max_mid_eps_pos (d : ℚ) : (0 : ℚ) < max d epsFloor :=
  lt_of_lt_of_le epsFloor_pos (le_max_right d epsFloor)

/-- The electric fraction is monotone in the range. -/
theorem frac_electric_mono {r₁ r₂ : ℚ} (d : ℚ) (h : r₁ ≤ r₂) :
    frac_electric r₁ d ≤ frac_electric r₂ d :=
  min_le_min le_rfl (div_le_div_of_nonneg_right h (max_mid_eps_pos d).le)

theorem frac_electric_le_one (r d : ℚ) : frac_electric r d ≤ 1 :=
  min_le_left 1 _

/-- Below the epsilon floor the `min` plays no role:
`frac_electric r d = r / max d ε` when `0 ≤ r ≤ ε`. -/
theorem frac_electric_small {r : ℚ} (d : ℚ) (h : r ≤ epsFloor) :
    frac_electric r d = r / max d epsFloor := by
  unfold frac_electric
  refine min_eq_right ?_
  rw [div_le_one (max_mid_eps_pos d)]
  exact h.trans (le_max_right d epsFloor)

/-- Past the epsilon floor, every bin with midpoint at most ε is fully
electric. -/
theorem frac_electric_sat {r d : ℚ} (hr : epsFloor ≤ r) (hd : d ≤ epsFloor) :
    frac_electric r d = 1 := by
  unfold frac_electric
  rw [max_eq_right hd]
  refine min_eq_left ?_
  rw [le_div_iff₀ epsFloor_pos, one_mul]
  exact hr

theorem frac_electric_zero (d : ℚ) : frac_electric 0 d = 0 := by
  unfold frac_electric
  rw [zero_div]
  exact min_eq_right (by norm_num)

theorem ev_share_dot_low {r : ℚ} (bins : List TripBin) (h : r ≤ epsFloor) :
    ev_share_dot r bins = r * lowSlope bins := by
  unfold ev_share_dot lowSlope
  rw [← List.sum_map_mul_left]
  congr 1
  refine List.map_congr_left ?_
  intro b _
  rw [frac_electric_small b.midpoint h]
  ring

/-- When the total raw VMT weight is zero every weight is zero (Lean's
`x / 0 = 0`; NumPy yields NaN/inf entries there, but the final clamp sends
the NaN dot to the same value `0`, see vmt_bins.py line 115). -/
theorem ev_share_dot_tzero {r : ℚ} (bins : List TripBin)
    (h : total_vmt bins = 0) : ev_share_dot r bins = 0 := by
  unfold ev_share_dot
  rw [h]
  simp

/-- The weights `share * midpoint / total_vmt` sum to 1 whenever
`total_vmt ≠ 0`. -/
theorem sum_weights (bins : List TripBin) (h : total_vmt bins ≠ 0) :
    (bins.map (fun b => b.share_of_trips * b.midpoint / total_vmt bins)).sum
      = 1 := by
  simp only [div_eq_mul_inv]
  rw [List.sum_map_mul_right]
  exact mul_inv_cancel₀ h

/-- With a negative total weight, past the epsilon floor the dot product
is at least 1, so the clamped share is constantly 1. -/
theorem dot_ge_one_of_neg {r : ℚ} (bins : List TripBin)
    (hs : ∀ b ∈ bins, 0 ≤ b.share_of_trips) (hT : total_vmt bins < 0)
    (hr : epsFloor ≤ r) : 1 ≤ ev_share_dot r bins := by
  have h1 : (bins.map (fun b =>
      b.share_of_trips * b.midpoint / total_vmt bins)).sum
        ≤ ev_share_dot r bins := by
    unfold ev_share_dot
    refine List.sum_le_sum ?_
    intro b hb
    rcases le_or_lt b.midpoint epsFloor with hm | hm
    · rw [frac_electric_sat hr hm, mul_one]
    · have hw : b.share_of_trips * b.midpoint / total_vmt bins ≤ 0 :=
        div_nonpos_iff.mpr (Or.inl ⟨mul_nonneg (hs b hb)
          (le_of_lt (lt_trans epsFloor_pos hm)), hT.le⟩)
      calc b.share_of_trips * b.midpoint / total_vmt bins
          = b.share_of_trips * b.midpoint / total_vmt bins * 1 := by ring
        _ ≤ _ := mul_le_mul_of_nonpos_left (frac_electric_le_one r b.midpoint) hw
  rw [sum_weights bins hT.ne] at h1
  exact h1

/-- Monotonicity of the clamped share on the low segment `[0, epsFloor]`. -/
theorem ev_share_mono_low {r₁ r₂ : ℚ} (bins : List TripBin)
    (h0 : 0 ≤ r₁) (h12 : r₁ ≤ r₂) (h2 : r₂ ≤ epsFloor) :
    compute_ev_share_for_range r₁ bins ≤ compute_ev_share_for_range r₂ bins := by
  unfold compute_ev_share_for_range
  rw [ev_share_dot_low bins (h12.trans h2), ev_share_dot_low bins h2]
  rcases le_or_lt 0 (lowSlope bins) with hK | hK
  · exact clamp01_mono (mul_le_mul_of_nonneg_right h12 hK)
  · rw [clamp01_of_nonpos (mul_nonpos_iff.mpr (Or.inl ⟨h0, hK.le⟩)),
        clamp01_of_nonpos (mul_nonpos_iff.mpr (Or.inl ⟨h0.trans h12, hK.le⟩))]

/-- Monotonicity of the clamped share on the high segment `[epsFloor, ∞)`. -/
theorem ev_share_mono_high {r₁ r₂ : ℚ} (bins : List TripBin)
    (hs : ∀ b ∈ bins, 0 ≤ b.share_of_trips)
    (h1 : epsFloor ≤ r₁) (h12 : r₁ ≤ r₂) :
    compute_ev_share_for_range r₁ bins ≤ compute_ev_share_for_range r₂ bins := by
  unfold compute_ev_share_for_range
  rcases lt_trichotomy (total_vmt bins) 0 with hT | hT | hT
  · rw [clamp01_of_one_le (dot_ge_one_of_neg bins hs hT h1),
        clamp01_of_one_le (dot_ge_one_of_neg bins hs hT (h1.trans h12))]
  · rw [ev_share_dot_tzero bins hT, ev_share_dot_tzero bins hT]
  · refine clamp01_mono (List.sum_le_sum ?_)
    intro b hb
    rcases le_or_lt b.midpoint epsFloor with hm | hm
    · rw [frac_electric_sat h1 hm, frac_electric_sat (h1.trans h12) hm]
    · have hw : 0 ≤ b.share_of_trips * b.midpoint / total_vmt bins :=
        div_nonneg (mul_nonneg (hs b hb)
          (le_of_lt (lt_trans epsFloor_pos hm))) hT.le
      exact mul_le_mul_of_nonneg_left (frac_electric_mono b.midpoint h12) hw

/-- Past every midpoint (and the epsilon floor) a bin is fully electric. -/
theorem frac_electric_of_le {r d : ℚ} (h : max d epsFloor ≤ r) :
    frac_electric r d = 1 := by
  unfold frac_electric
  refine min_eq_left ?_
  rw [le_div_iff₀ (max_mid_eps_pos d), one_mul]
  exact h

/-- If the range covers every bin midpoint (and the epsilon floor) and
the total raw VMT weight is nonzero, the share saturates at exactly 1. -/
theorem ev_share_saturated {r : ℚ} (bins : List TripBin)
    (hT : total_vmt bins ≠ 0) (h : ∀ b ∈ bins, max b.midpoint epsFloor ≤ r) :
    compute_ev_share_for_range r bins = 1 := by
  unfold compute_ev_share_for_range ev_share_dot
  have hmap : (bins.map (fun b =>
      b.share_of_trips * b.midpoint / total_vmt bins
        * frac_electric r b.midpoint))
      = bins.map (fun b => b.share_of_trips * b.midpoint / total_vmt bins) :=
    List.map_congr_left (fun b hb => by rw [frac_electric_of_le (h b hb), mul_one])
  rw [hmap, sum_weights bins hT, clamp01_of_one_le le_rfl]

/-- The trip shares of the fixed default table sum to exactly 1, so the
renormalisation branch is not taken. -/
theorem default_trip_bins_eq : default_trip_bins = default_bins_raw := by
  unfold default_trip_bins
  norm_num [default_bins_raw]

theorem compute_ev_share_nonneg (r : ℚ) (bins : List TripBin) :
    0 ≤ compute_ev_share_for_range r bins := clamp01_nonneg _

theorem compute_ev_share_le_one (r : ℚ) (bins : List TripBin) :
    compute_ev_share_for_range r bins ≤ 1 := clamp01_le_one _

/-! ## Field projections of `compute_emissions_and_costs` -/

theorem cec_co2_ev_tons (range_miles ev_vmt gas_vmt : ℚ) (p : ScenarioParams) :
    (compute_emissions_and_costs range_miles ev_vmt gas_vmt p).co2_ev_tons
      = ev_vmt * p.ev_kwh_per_mile * p.grid_co2_kg_per_kwh / 1000 := rfl

theorem cec_co2_savings_tons (range_miles ev_vmt gas_vmt : ℚ) (p : ScenarioParams) :
    (compute_emissions_and_costs range_miles ev_vmt gas_vmt p).co2_savings_tons
      = (ev_vmt + gas_vmt) * p.gas_litre_per_mile * p.gas_co2_kg_per_litre / 1000
        - (ev_vmt * p.ev_kwh_per_mile * p.grid_co2_kg_per_kwh / 1000
           + gas_vmt * p.gas_litre_per_mile * p.gas_co2_kg_per_litre / 1000) := rfl

theorem cec_capex_per_ton (range_miles ev_vmt gas_vmt : ℚ) (p : ScenarioParams) :
    (compute_emissions_and_costs range_miles ev_vmt gas_vmt p).capex_per_ton_usd
      = if 0 < (compute_emissions_and_costs range_miles ev_vmt gas_vmt p).co2_savings_tons
        then CapexPerTon.finite
          (p.battery_kwh_per_mile_range * range_miles * p.battery_cost_usd_per_kwh
            / (compute_emissions_and_costs range_miles ev_vmt gas_vmt p).co2_savings_tons)
        else CapexPerTon.infinity := rfl

theorem lookupScenario_eq_none_iff (name : String)
    (scenarios : List (String × ScenarioParams)) :
    lookupScenario name scenarios = none ↔ name ∉ scenarios.map Prod.fst := by
  induction scenarios with
  | nil => simp [lookupScenario]
  | cons kv rest ih =>
    obtain ⟨k, v⟩ := kv
    by_cases hk : k = name
    · subst hk
      simp [lookupScenario]
    · simp only [lookupScenario, if_neg hk, ih, List.map_cons, List.mem_cons]
      constructor
      · intro h hmem
        rcases hmem with hmem | hmem
        · exact hk hmem.symm
        · exact h hmem
      · intro h hmem
        exact h (Or.inr hmem)

/-- Reduction of `compute_range_scenario` when the scenario lookup
succeeds. -/
theorem compute_range_scenario_ok (scenarios : List (String × ScenarioParams))
    {name : String} {p : ScenarioParams}
    (h : lookupScenario name scenarios = some p)
    (range_miles : ℚ) (charges_per_week : ℤ) (annual_vmt : ℚ) :
    compute_range_scenario scenarios range_miles charges_per_week name annual_vmt
      = Except.ok
        { range_miles := range_miles
          charges_per_week := charges_per_week
          scenario_name := name
          ev_share := clamp01 (compute_ev_share_for_range range_miles default_trip_bins
            * charging_frequency_multiplier charges_per_week)
          ev_vmt := clamp01 (compute_ev_share_for_range range_miles default_trip_bins
            * charging_frequency_multiplier charges_per_week) * annual_vmt
          gas_vmt := annual_vmt
            - clamp01 (compute_ev_share_for_range range_miles default_trip_bins
                * charging_frequency_multiplier charges_per_week) * annual_vmt
          co2_savings_tons := (compute_emissions_and_costs range_miles
            (clamp01 (compute_ev_share_for_range range_miles default_trip_bins
              * charging_frequency_multiplier charges_per_week) * annual_vmt)
            (annual_vmt
              - clamp01 (compute_ev_share_for_range range_miles default_trip_bins
                  * charging_frequency_multiplier charges_per_week) * annual_vmt)
            p).co2_savings_tons
          capex_per_ton_usd := (compute_emissions_and_costs range_miles
            (clamp01 (compute_ev_share_for_range range_miles default_trip_bins
              * charging_frequency_multiplier charges_per_week) * annual_vmt)
            (annual_vmt
              - clamp01 (compute_ev_share_for_range range_miles default_trip_bins
                  * charging_frequency_multiplier charges_per_week) * annual_vmt)
            p).capex_per_ton_usd } := by
  unfold compute_range_scenario get_scenario_params
  rw [h]

/-! ## Claim theorems -/

/-- C1: for every fixed list of `TripBin`s whose `share_of_trips` values
sum to 1 and are non-negative, and all ranges `0 ≤ r₁ ≤ r₂`,
`compute_ev_share_for_range r₁ bins ≤ compute_ev_share_for_range r₂ bins`:
the EV share is non-decreasing in the range. -/
theorem ev_share_for_range_monotone (bins : List TripBin)
    (hnn : ∀ b ∈ bins, 0 ≤ b.share_of_trips)
    (hsum : (bins.map (·.share_of_trips)).sum = 1)
    (r₁ r₂ : ℚ) (h0 : 0 ≤ r₁) (h12 : r₁ ≤ r₂) :
    compute_ev_share_for_range r₁ bins ≤ compute_ev_share_for_range r₂ bins := by
  rcases le_or_lt r₂ epsFloor with h2 | h2
  · exact ev_share_mono_low bins h0 h12 h2
  · rcases le_or_lt epsFloor r₁ with h1 | h1
    · exact ev_share_mono_high bins hnn h1 h12
    · exact le_trans (ev_share_mono_low bins h0 h1.le le_rfl)
        (ev_share_mono_high bins hnn le_rfl h2.le)

/-- Witness for C1: the default bin set satisfies the hypotheses, and the
share at range 3 is at most the share at range 7. -/
theorem ev_share_for_range_monotone_witness :
    (∀ b ∈ default_trip_bins, 0 ≤ b.share_of_trips) ∧
    (default_trip_bins.map (·.share_of_trips)).sum = 1 ∧
    (0 : ℚ) ≤ 3 ∧ (3 : ℚ) ≤ 7 ∧
    compute_ev_share_for_range 3 default_trip_bins
      ≤ compute_ev_share_for_range 7 default_trip_bins := by
  have hnn : ∀ b ∈ default_trip_bins, 0 ≤ b.share_of_trips := by
    rw [default_trip_bins_eq]
    intro b hb
    fin_cases hb <;> norm_num
  have hsum : (default_trip_bins.map (·.share_of_trips)).sum = 1 := by
    rw [default_trip_bins_eq]
    norm_num [default_bins_raw]
  exact ⟨hnn, hsum, by norm_num, by norm_num,
    ev_share_for_range_monotone default_trip_bins hnn hsum 3 7
      (by norm_num) (by norm_num)⟩

/-- C3: with `ev_vmt = 0`, for every range, gasoline VMT and scenario
parameter set, `compute_emissions_and_costs` reports zero EV CO2 and
exactly zero CO2 savings. -/
theorem ev_vmt_zero_no_savings (range_miles gas_vmt : ℚ) (params : ScenarioParams) :
    (compute_emissions_and_costs range_miles 0 gas_vmt params).co2_ev_tons = 0 ∧
    (compute_emissions_and_costs range_miles 0 gas_vmt params).co2_savings_tons = 0 := by
  constructor
  · rw [cec_co2_ev_tons]; ring
  · rw [cec_co2_savings_tons]; ring

/-- C6: at range 0 the EV share is 0 for every bin list, and at range
`1e9` the share for the default bin set is at least `0.999999`. -/
theorem ev_share_limits :
    (∀ bins : List TripBin, compute_ev_share_for_range 0 bins = 0) ∧
    (0.999999 : ℚ) ≤ compute_ev_share_for_range 1000000000 default_trip_bins := by
  constructor
  · intro bins
    unfold compute_ev_share_for_range ev_share_dot
    simp [frac_electric_zero, clamp01]
  · have h1 : compute_ev_share_for_range 1000000000 default_trip_bins = 1 := by
      refine ev_share_saturated default_trip_bins ?_ ?_
      · rw [default_trip_bins_eq]
        norm_num [total_vmt, default_bins_raw, TripBin.midpoint]
      · rw [default_trip_bins_eq]
        intro b hb
        fin_cases hb <;>
          simp [TripBin.midpoint, epsFloor, max_le_iff] <;> norm_num
    rw [h1]
    norm_num

/-- C2 counterexample: the claim "capex_per_ton_usd is a finite strictly
positive number whenever co2_savings_tons > 0, for any params with
positive battery_cost_usd_per_kwh" is false: at `range_miles = 0` the
battery CAPEX is 0, so the ratio is the finite but non-positive value 0
(input: `range_miles = 0`, `ev_vmt = 1000`, `gas_vmt = 0`, `testParams`). -/
theorem capex_positive_claim_false :
    ¬ (∀ (range_miles ev_vmt gas_vmt : ℚ) (params : ScenarioParams),
        0 < params.battery_cost_usd_per_kwh →
        0 < (compute_emissions_and_costs range_miles ev_vmt gas_vmt
              params).co2_savings_tons →
        ∃ v, (compute_emissions_and_costs range_miles ev_vmt gas_vmt
              params).capex_per_ton_usd = CapexPerTon.finite v ∧ 0 < v) := by
  intro h
  have hsav : 0 < (compute_emissions_and_costs 0 1000 0
      testParams).co2_savings_tons := by
    rw [cec_co2_savings_tons]
    norm_num [testParams]
  obtain ⟨v, hv, hvpos⟩ := h 0 1000 0 testParams (by norm_num [testParams]) hsav
  rw [cec_capex_per_ton, if_pos hsav] at hv
  have hv0 : v = 0 := by
    have := (CapexPerTon.finite.injEq _ _).mp hv.symm
    rw [this]
    norm_num [testParams]
  rw [hv0] at hvpos
  exact lt_irrefl 0 hvpos

/-- C2 (amended): for any call with positive `battery_cost_usd_per_kwh`,
`capex_per_ton_usd` is `+infinity` whenever `co2_savings_tons ≤ 0`; when
`co2_savings_tons > 0` it is finite, and strictly positive provided
additionally the battery pack is nontrivial
(`0 < battery_kwh_per_mile_range * range_miles`). -/
theorem capex_per_ton_cases (range_miles ev_vmt gas_vmt : ℚ)
    (params : ScenarioParams) (hb : 0 < params.battery_cost_usd_per_kwh) :
    ((compute_emissions_and_costs range_miles ev_vmt gas_vmt
        params).co2_savings_tons ≤ 0 →
      (compute_emissions_and_costs range_miles ev_vmt gas_vmt
        params).capex_per_ton_usd = CapexPerTon.infinity) ∧
    (0 < (compute_emissions_and_costs range_miles ev_vmt gas_vmt
        params).co2_savings_tons →
      ∃ v, (compute_emissions_and_costs range_miles ev_vmt gas_vmt
          params).capex_per_ton_usd = CapexPerTon.finite v ∧
        (0 < params.battery_kwh_per_mile_range * range_miles → 0 < v)) := by
  constructor
  · intro hle
    rw [cec_capex_per_ton, if_neg (not_lt.mpr hle)]
  · intro hpos
    rw [cec_capex_per_ton, if_pos hpos]
    exact ⟨_, rfl, fun hbk => div_pos (mul_pos hbk hb) hpos⟩

/-- Witness for the amended C2: a concrete call with positive battery
cost, positive savings and a nontrivial pack; every hypothesis of the
amended theorem is discharged at this input and the cost per ton comes
out finite and strictly positive. -/
theorem capex_per_ton_cases_witness :
    0 < testParams.battery_cost_usd_per_kwh ∧
    0 < (compute_emissions_and_costs 5 1000 0 testParams).co2_savings_tons ∧
    0 < testParams.battery_kwh_per_mile_range * 5 ∧
    ∃ v, (compute_emissions_and_costs 5 1000 0
        testParams).capex_per_ton_usd = CapexPerTon.finite v ∧ 0 < v := by
  have hb : 0 < testParams.battery_cost_usd_per_kwh := by
    norm_num [testParams]
  have hsav : 0 < (compute_emissions_and_costs 5 1000 0
      testParams).co2_savings_tons := by
    rw [cec_co2_savings_tons]
    norm_num [testParams]
  have hbk : 0 < testParams.battery_kwh_per_mile_range * (5 : ℚ) := by
    norm_num [testParams]
  obtain ⟨v, hv, himp⟩ := (capex_per_ton_cases 5 1000 0 testParams hb).2 hsav
  exact ⟨hb, hsav, hbk, v, hv, himp hbk⟩

/-- C4: for any scenario store containing "Average",
`compute_range_scenario 100 5 "Average" 12000` succeeds with
`ev_share = compute_ev_share_for_range 100` (the multiplier for 5
charges/week is exactly 1 and the clamp does not alter the share) and
`ev_vmt + gas_vmt = 12000` exactly; and the charging multiplier is the
fixed lookup `{2: 0.85, 3: 0.90, 5: 1.00, 7: 1.05}` with default 1. -/
theorem range_scenario_average_100 (scenarios : List (String × ScenarioParams))
    (p : ScenarioParams) (havg : lookupScenario "Average" scenarios = some p) :
    (∃ res, compute_range_scenario scenarios 100 5 "Average" 12000
        = Except.ok res ∧
      res.ev_share = compute_ev_share_for_range 100 default_trip_bins ∧
      res.ev_vmt + res.gas_vmt = 12000) ∧
    charging_frequency_multiplier 2 = 0.85 ∧
    charging_frequency_multiplier 3 = 0.90 ∧
    charging_frequency_multiplier 5 = 1.00 ∧
    charging_frequency_multiplier 7 = 1.05 ∧
    (∀ c : ℤ, c ≠ 2 → c ≠ 3 → c ≠ 5 → c ≠ 7 →
      charging_frequency_multiplier c = 1) := by
  have hm5 : charging_frequency_multiplier 5 = 1 := by
    norm_num [charging_frequency_multiplier]
  refine ⟨?_, by norm_num [charging_frequency_multiplier],
    by norm_num [charging_frequency_multiplier],
    by norm_num [charging_frequency_multiplier],
    by norm_num [charging_frequency_multiplier], ?_⟩
  · refine ⟨_, compute_range_scenario_ok scenarios havg 100 5 12000, ?_, ?_⟩
    · show clamp01 (compute_ev_share_for_range 100 default_trip_bins
        * charging_frequency_multiplier 5) = _
      rw [hm5, mul_one]
      exact clamp01_eq_self (compute_ev_share_nonneg 100 default_trip_bins)
        (compute_ev_share_le_one 100 default_trip_bins)
    · show clamp01 (compute_ev_share_for_range 100 default_trip_bins
        * charging_frequency_multiplier 5) * 12000
        + (12000 - clamp01 (compute_ev_share_for_range 100 default_trip_bins
            * charging_frequency_multiplier 5) * 12000) = 12000
      ring
  · intro c h2 h3 h5 h7
    simp [charging_frequency_multiplier, h2, h3, h5, h7]
    norm_num

/-- Witness for C4: the one-entry store containing "Average". -/
theorem range_scenario_average_100_witness :
    lookupScenario "Average" sampleStore = some testParams ∧
    (∃ res, compute_range_scenario sampleStore 100 5 "Average" 12000
        = Except.ok res ∧
      res.ev_share = compute_ev_share_for_range 100 default_trip_bins ∧
      res.ev_vmt + res.gas_vmt = 12000) := by
  have h : lookupScenario "Average" sampleStore = some testParams := by
    simp [sampleStore, lookupScenario]
  exact ⟨h, (range_scenario_average_100 sampleStore testParams h).1⟩

/-- C5: `get_scenario_params` returns the lookup-failure message
enumerating the valid names exactly when the requested name is not among
the loaded keys, and returns the stored parameter set for every stored
name. -/
theorem get_scenario_params_contract
    (scenarios : List (String × ScenarioParams)) (name : String) :
    (name ∉ scenarios.map Prod.fst ↔
      get_scenario_params scenarios name
        = Except.error (unknownScenarioMsg name scenarios)) ∧
    (∀ p, lookupScenario name scenarios = some p →
      get_scenario_params scenarios name = Except.ok p) := by
  constructor
  · rw [← lookupScenario_eq_none_iff]
    constructor
    · intro h
      unfold get_scenario_params
      rw [h]
    · intro h
      cases hl : lookupScenario name scenarios with
      | none => rfl
      | some p =>
        unfold get_scenario_params at h
        rw [hl] at h
        cases h
  · intro p hp
    unfold get_scenario_params
    rw [hp]

/-- Witness for C5: on the one-entry store, looking up the stored name
"Average" returns the stored parameters. -/
theorem get_scenario_params_contract_witness :
    lookupScenario "Average" sampleStore = some testParams ∧
    get_scenario_params sampleStore "Average" = Except.ok testParams := by
  have h : lookupScenario "Average" sampleStore = some testParams := by
    simp [sampleStore, lookupScenario]
  exact ⟨h, (get_scenario_params_contract sampleStore "Average").2 testParams h⟩

/-- C7: `run_erev_analysis [100] ["Average"]` yields exactly one row, with
`EV_share = 0.84` (the fixed table value) and
`Gas_VMT = VMT_TOTAL - EV_VMT` exactly. -/
theorem run_analysis_single_row :
    (run_erev_analysis [100] [ScenarioName.Average]).length = 1 ∧
    ∀ row ∈ run_erev_analysis [100] [ScenarioName.Average],
      row.EV_share = 0.84 ∧ row.Gas_VMT = VMT_TOTAL - row.EV_VMT := by
  constructor
  · rfl
  · intro row hrow
    have hr : row = erev_row ScenarioName.Average 100 := by
      simpa [run_erev_analysis] using hrow
    subst hr
    constructor
    · show compute_ev_vmt_share 100 = 0.84
      norm_num [compute_ev_vmt_share, lookupShare, EV_SHARE_BASE]
    · rfl

/-- Witness for C7: the single row of the analysis. -/
theorem run_analysis_single_row_witness :
    erev_row ScenarioName.Average 100
      ∈ run_erev_analysis [100] [ScenarioName.Average] ∧
    (erev_row ScenarioName.Average 100).EV_share = 0.84 ∧
    (erev_row ScenarioName.Average 100).Gas_VMT
      = VMT_TOTAL - (erev_row ScenarioName.Average 100).EV_VMT := by
  have hm : erev_row ScenarioName.Average 100
      ∈ run_erev_analysis [100] [ScenarioName.Average] := by
    simp [run_erev_analysis]
  exact ⟨hm, run_analysis_single_row.2 _ hm⟩

/-! Field projections of `erev_row`'s cost columns. -/

theorem erev_row_Cfleet (sc : ScenarioName) (r : ℚ) :
    (erev_row sc r).Cfleet_USD
      = compute_fleet_size * compute_battery_size r * (CBAT * cost_mult sc) := rfl

theorem erev_row_per_mile (sc : ScenarioName) (r : ℚ) :
    (erev_row sc r).usd_per_ev_mile
      = compute_fleet_size * compute_battery_size r * (CBAT * cost_mult sc)
        / (VMT_TOTAL * compute_ev_vmt_share r) := rfl

theorem erev_row_per_tco2 (sc : ScenarioName) (r : ℚ) :
    (erev_row sc r).usd_per_tco2
      = compute_fleet_size * compute_battery_size r * (CBAT * cost_mult sc)
        / BATTERY_LIFE_YRS / (erev_row sc r).CO2_saved_tons := rfl

/-- C8: in the paper-replication path the emissions outputs do not depend
on the scenario — for any two scenarios and the same range, `EV_share`,
`EV_VMT`, `Gas_VMT`, `Installed_TWh` and `CO2_saved_tons` coincide (the
`grid_mult` binding of `compute_costs` is dead code) — while each cost
column is the Average-scenario value scaled by `cost_mult`. -/
theorem scenario_independence_of_emissions (s₁ s₂ : ScenarioName) (r : ℚ) :
    (erev_row s₁ r).EV_share = (erev_row s₂ r).EV_share ∧
    (erev_row s₁ r).EV_VMT = (erev_row s₂ r).EV_VMT ∧
    (erev_row s₁ r).Gas_VMT = (erev_row s₂ r).Gas_VMT ∧
    (erev_row s₁ r).Installed_TWh = (erev_row s₂ r).Installed_TWh ∧
    (erev_row s₁ r).CO2_saved_tons = (erev_row s₂ r).CO2_saved_tons ∧
    (erev_row s₁ r).Cfleet_USD
      = cost_mult s₁ * (erev_row ScenarioName.Average r).Cfleet_USD ∧
    (erev_row s₁ r).usd_per_ev_mile
      = cost_mult s₁ * (erev_row ScenarioName.Average r).usd_per_ev_mile ∧
    (erev_row s₁ r).usd_per_tco2
      = cost_mult s₁ * (erev_row ScenarioName.Average r).usd_per_tco2 := by
  have havg : cost_mult ScenarioName.Average = 1 := by norm_num [cost_mult]
  have hco : (erev_row s₁ r).CO2_saved_tons
      = (erev_row ScenarioName.Average r).CO2_saved_tons := rfl
  refine ⟨rfl, rfl, rfl, rfl, rfl, ?_, ?_, ?_⟩
  · rw [erev_row_Cfleet, erev_row_Cfleet, havg]
    ring
  · rw [erev_row_per_mile, erev_row_per_mile, havg]
    ring
  · rw [erev_row_per_tco2, erev_row_per_tco2, havg, hco]
    ring

/-- C9: `compute_emissions` returns residual-gasoline emissions minus EV
emissions (`GGAS*gas/1e6 - GEV*ev/1e6`), not savings against an
all-gasoline baseline; the value is negative whenever
`GEV*ev_vmt > GGAS*gas_vmt`, which is the case in the range-100 Average
row, where it also differs from the baseline-style quantity
`ev_vmt*(GGAS-GEV)/1e6`. -/
theorem compute_emissions_is_gas_minus_ev :
    (∀ ev_vmt gas_vmt : ℚ, compute_emissions ev_vmt gas_vmt
      = (GEV * ev_vmt / 1e6, GGAS * gas_vmt / 1e6,
         GGAS * gas_vmt / 1e6 - GEV * ev_vmt / 1e6)) ∧
    (∀ ev_vmt gas_vmt : ℚ, GGAS * gas_vmt < GEV * ev_vmt →
      (compute_emissions ev_vmt gas_vmt).2.2 < 0) ∧
    (erev_row ScenarioName.Average 100).CO2_saved_tons < 0 ∧
    (erev_row ScenarioName.Average 100).CO2_saved_tons
      ≠ (erev_row ScenarioName.Average 100).EV_VMT * (GGAS - GEV) / 1e6 := by
  refine ⟨?_, ?_, ?_, ?_⟩
  · intro ev_vmt gas_vmt
    norm_num [compute_emissions]
  · intro ev_vmt gas_vmt h
    show GGAS * gas_vmt / 1e6 - GEV * ev_vmt / 1e6 < 0
    linarith
  · show GGAS * (VMT_TOTAL - VMT_TOTAL * compute_ev_vmt_share 100) / 1e6
      - GEV * (VMT_TOTAL * compute_ev_vmt_share 100) / 1e6 < 0
    norm_num [compute_ev_vmt_share, lookupShare, EV_SHARE_BASE, GGAS, GEV,
      MPG, ETA_EV, G_CO2_GRID, VMT_TOTAL]
  · show GGAS * (VMT_TOTAL - VMT_TOTAL * compute_ev_vmt_share 100) / 1e6
      - GEV * (VMT_TOTAL * compute_ev_vmt_share 100) / 1e6
      ≠ VMT_TOTAL * compute_ev_vmt_share 100 * (GGAS - GEV) / 1e6
    norm_num [compute_ev_vmt_share, lookupShare, EV_SHARE_BASE, GGAS, GEV,
      MPG, ETA_EV, G_CO2_GRID, VMT_TOTAL]

/-- Witness for C9: at `ev_vmt = 1`, `gas_vmt = 0` the EV term dominates
and the returned savings value is negative. -/
theorem compute_emissions_is_gas_minus_ev_witness :
    GGAS * (0 : ℚ) < GEV * 1 ∧ (compute_emissions 1 0).2.2 < 0 := by
  have h : GGAS * (0 : ℚ) < GEV * 1 := by
    norm_num [GGAS, GEV, MPG, ETA_EV, G_CO2_GRID]
  exact ⟨h, compute_emissions_is_gas_minus_ev.2.1 1 0 h⟩

set_option maxHeartbeats 1000000 in
/-- C10: `compute_ev_vmt_share` clamps outside the fixed table: every
range at most 25 yields 0.55 and every range at least 150 yields 0.868
(np.interp endpoint behaviour), so `run_erev_analysis` at range 0 reports
an EV share of 0.55, not 0. -/
theorem ev_vmt_share_clamps :
    (∀ r : ℚ, r ≤ 25 → compute_ev_vmt_share r = 0.55) ∧
    (∀ r : ℚ, 150 ≤ r → compute_ev_vmt_share r = 0.868) ∧
    (run_erev_analysis [0] [ScenarioName.Average]).map (·.EV_share)
      = [0.55] := by
  refine ⟨?_, ?_, ?_⟩
  · intro r hr
    simp only [compute_ev_vmt_share, EV_SHARE_BASE, lookupShare, np_interp]
    split_ifs <;> first | rfl | linarith
  · intro r hr
    simp only [compute_ev_vmt_share, EV_SHARE_BASE, lookupShare, np_interp]
    split_ifs <;> first | rfl | linarith
  · show [(erev_row ScenarioName.Average 0).EV_share] = [0.55]
    show [compute_ev_vmt_share 0] = [0.55]
    norm_num [compute_ev_vmt_share, lookupShare, EV_SHARE_BASE, np_interp]

/-- Witness for C10: the claimed clamps at the concrete ranges 0 and 200. -/
theorem ev_vmt_share_clamps_witness :
    (0 : ℚ) ≤ 25 ∧ compute_ev_vmt_share 0 = 0.55 ∧
    (150 : ℚ) ≤ 200 ∧ compute_ev_vmt_share 200 = 0.868 :=
  ⟨by norm_num, ev_vmt_share_clamps.1 0 (by norm_num), by norm_num,
    ev_vmt_share_clamps.2.1 200 (by norm_num)⟩

end EVCopilot
